import Mathlib

/-!
Shallow embedding of `src/stock/us/us_market.py` (class `UsaMarket`), the
concurrent price-refresh pipeline: per-symbol refresh with Yahoo-then-Google
fallback (`refresh_stock`), the retrying adapter calls (`_get_yahoo_data`,
`_get_google_data`) and the coordinator (`refresh_stocks`) that filters the
listing catalog, submits one task per symbol and folds the outcomes into
summary counters.

External collaborators are modelled by their contracts:
* the two quote providers (`web.get_data_yahoo` / `web.get_data_google`) are
  parameters, functions of (symbol, start, end, attempt index) returning
  `Option` of a data frame — `none` models an attempt that raised an
  exception (caught and logged by the adapter loop);
* `pandas.to_datetime` is modelled on the string shapes this module feeds it
  (a 4-digit year string produced by `str(int(ipo))`, a full date string, or
  the configured history-start string);
* the thread pool: each task is a pure function of its arguments, so running
  tasks concurrently and collecting `future.result()` in submission order is
  the same as the sequential `List.map` used here;
* file persistence (`to_csv`): the written rows are returned as data
  (`writtenFile`) instead of being written to disk; the purge of the history
  folder (`shutil.rmtree`) has no bearing on any claim and is not modelled.
-/

namespace UsaMarket

/-- Calendar date, modelling Python `datetime.date` values. -/
structure Date where
  year : Nat
  month : Nat
  day : Nat
deriving DecidableEq, Repr

/-- Gregorian leap-year rule (as in Python's `datetime`). -/
def isLeapYear (y : Nat) : Bool :=
  (y % 4 == 0 && y % 100 != 0) || y % 400 == 0

/-- Days in a month of a given year (as in Python's `datetime`). -/
def daysInMonth (y m : Nat) : Nat :=
  if m == 2 then (if isLeapYear y then 29 else 28)
  else if m == 4 || m == 6 || m == 9 || m == 11 then 30
  else 31

/-- `d + datetime.timedelta(days=1)`. -/
def addOneDay (d : Date) : Date :=
  if d.day < daysInMonth d.year d.month then ⟨d.year, d.month, d.day + 1⟩
  else if d.month < 12 then ⟨d.year, d.month + 1, 1⟩
  else ⟨d.year + 1, 1, 1⟩

/-- The string shapes that reach `pandas.to_datetime` in `refresh_stocks`
(line 97): the literal `"n/a"` marker, a bare year string `str(int(ipo))`,
or a full date string (the configured history-start date, or an IPO field
that already carries a full date). -/
inductive IpoStr where
  | na : IpoStr
  | yearStr : Nat → IpoStr
  | fullDate : Date → IpoStr
deriving DecidableEq, Repr

/-- The `IPO` column value of one listing row: a string, the float NaN, or a
numeric year (the embedding carries `int(ipo)`, the truncation applied by the
code). -/
inductive IpoField where
  | str : IpoStr → IpoField
  | nan : IpoField
  | num : Nat → IpoField
deriving DecidableEq, Repr

/-- Models `pandas.to_datetime` on the inputs this module produces: a bare
4-digit year string parses to January 1 of that year, a full date string
parses to that date, and the literal `"n/a"` raises (`none`). -/
def pandasToDatetime : IpoStr → Option Date
  | .na => none
  | .yearStr y => some ⟨y, 1, 1⟩
  | .fullDate d => some d

/-- Start-date resolution, `refresh_stocks` lines 91-97: a string IPO equal
to `'n/a'` is replaced by the configured history-start string, NaN likewise,
and a numeric IPO becomes the year string `str(int(ipo))`; the chosen string
then goes through `pandas.to_datetime`. -/
def resolveStartDate (history_start_date : IpoStr) (ipo : IpoField) : Option Date :=
  let start_date : IpoStr :=
    match ipo with
    | .str s => if s = IpoStr.na then history_start_date else s
    | .nan => history_start_date
    | .num y => .yearStr y
  pandasToDatetime start_date

/-- One row of the raw Yahoo data frame: OHLCV plus the `Adj Close` column.
Prices are carried as integers; only their identity matters here. -/
structure YahooRow where
  date : Int
  Open : Int
  High : Int
  Low : Int
  Close : Int
  Volume : Int
  AdjClose : Int
deriving DecidableEq, Repr

/-- One row of a normalized price series (columns `Open/High/Low/Close/Volume`
over a `Date` index), the shape Google returns and the shape persisted. -/
structure PriceRow where
  date : Int
  Open : Int
  High : Int
  Low : Int
  Close : Int
  Volume : Int
deriving DecidableEq, Repr

/-- `_get_yahoo_data` lines 133-134: `yahoo_data['Close'] = yahoo_data['Adj Close']`
then `del yahoo_data['Adj Close']`, applied to each row. -/
def yahooNormalizeRow (r : YahooRow) : PriceRow :=
  ⟨r.date, r.Open, r.High, r.Low, r.AdjClose, r.Volume⟩

/-- Column normalization of a whole raw Yahoo frame. -/
def yahooNormalize (raw : List YahooRow) : List PriceRow :=
  raw.map yahooNormalizeRow

/-- Python's `str.strip()` (used as `symbol.strip()` at lines 132 and 145):
drop leading and trailing whitespace. -/
def pyStrip (s : String) : String :=
  String.mk (((s.toList.dropWhile Char.isWhitespace).reverse.dropWhile
    Char.isWhitespace).reverse)

/-- A quote provider endpoint `web.get_data_yahoo`: symbol, start, end,
attempt index (successive retry attempts may behave differently) to an
optional frame; `none` models a raised exception. -/
abbrev YahooProvider := String → Date → Date → Nat → Option (List YahooRow)

/-- A quote provider endpoint `web.get_data_google`. -/
abbrev GoogleProvider := String → Date → Date → Nat → Option (List PriceRow)

/-- The `for i in range(retry)` loop shared by both adapters, started at
attempt index `i` with `k` attempts left: the first successful attempt's
data is kept (`break`); an attempt that raises (`none`) is logged and the
loop continues; exhausting the range leaves the result at `None`. -/
def fetchWithRetry {α : Type} (attempt : Nat → Option α) : Nat → Nat → Option α
  | _, 0 => none
  | i, k + 1 =>
    match attempt i with
    | some d => some d
    | none => fetchWithRetry attempt (i + 1) k

/-- Number of attempts the retry loop actually makes (iterations entered). -/
def attemptsUsed {α : Type} (attempt : Nat → Option α) : Nat → Nat → Nat
  | _, 0 => 0
  | i, k + 1 =>
    match attempt i with
    | some _ => 1
    | none => attemptsUsed attempt (i + 1) k + 1

/-- One attempt of `_get_yahoo_data`'s try-body (line 132-135): call the
provider with the stripped symbol and the end date advanced by one day, then
normalize the `Adj Close` column into `Close`. -/
def yahooAttempt (wy : YahooProvider) (symbol : String) (start «end» : Date)
    (i : Nat) : Option (List PriceRow) :=
  (wy (pyStrip symbol) start (addOneDay «end») i).map yahooNormalize

/-- One attempt of `_get_google_data`'s try-body (line 145): call the
provider with the stripped symbol and the original end date. -/
def googleAttempt (wg : GoogleProvider) (symbol : String) (start «end» : Date)
    (i : Nat) : Option (List PriceRow) :=
  wg (pyStrip symbol) start «end» i

/-- `_get_yahoo_data` (lines 128-139): up to `retry` attempts, each caught
exception logged, returning `None` after exhausting the range. -/
def _get_yahoo_data (retry : Nat) (wy : YahooProvider) (_exchange symbol : String)
    (start «end» : Date) : Option (List PriceRow) :=
  fetchWithRetry (yahooAttempt wy symbol start «end») 0 retry

/-- `_get_google_data` (lines 141-150). -/
def _get_google_data (retry : Nat) (wg : GoogleProvider) (_exchange symbol : String)
    (start «end» : Date) : Option (List PriceRow) :=
  fetchWithRetry (googleAttempt wg symbol start «end») 0 retry

/-- One row of the persisted CSV: `insert(0, Symbol, symbol)` prepends the
symbol as the leading column of every row. -/
structure CsvRow where
  Symbol : String
  date : Int
  Open : Int
  High : Int
  Low : Int
  Close : Int
  Volume : Int
deriving DecidableEq, Repr

/-- `history_prices.insert(0, StockPriceField.Symbol.value, symbol)`. -/
def prependSymbol (symbol : String) (r : PriceRow) : CsvRow :=
  ⟨symbol, r.date, r.Open, r.High, r.Low, r.Close, r.Volume⟩

/-- What one `refresh_stock` call produces: the returned triple
`(history_prices, history_prices is None, history_prices is None)`
(lines 110-126) together with the rows written by `to_csv` (line 122),
`none` when no file is written. -/
structure RefreshStockResult where
  historyPrices : Option (List PriceRow)
  yahooError : Bool
  googleError : Bool
  writtenFile : Option (List CsvRow)
deriving DecidableEq, Repr

/-- The spec's `RefreshOutcome.hadData`: the final series is present and
non-empty. -/
def hadData (r : RefreshStockResult) : Bool :=
  match r.historyPrices with
  | some s => !s.isEmpty
  | none => false

/-- The value of the local `history_prices` after the fallback step
(lines 111-113): the Yahoo result, replaced by the Google result when it
`is None or history_prices.empty`. -/
def fallbackSeries (retry : Nat) (wy : YahooProvider) (wg : GoogleProvider)
    (exchange symbol : String) (start_date end_date : Date) : Option (List PriceRow) :=
  match _get_yahoo_data retry wy exchange symbol start_date end_date with
  | none => _get_google_data retry wg exchange symbol start_date end_date
  | some s =>
    if s.isEmpty then _get_google_data retry wg exchange symbol start_date end_date
    else some s

/-- `refresh_stock` (lines 110-126): try Yahoo; if the result `is None or
.empty`, try Google; if the final result `is not None` (empty or not),
normalize, prepend the symbol and write the CSV; return the series and the
two flags, both `history_prices is None`. -/
def refresh_stock (retry : Nat) (wy : YahooProvider) (wg : GoogleProvider)
    (exchange symbol : String) (start_date end_date : Date) : RefreshStockResult :=
  match fallbackSeries retry wy wg exchange symbol start_date end_date with
  | some s => ⟨some s, false, false, some (s.map (prependSymbol symbol))⟩
  | none => ⟨none, true, true, none⟩

/-- One row of a listing sheet, as consumed by `refresh_stocks`. -/
structure StockRow where
  Symbol : String
  IPO : IpoField
deriving DecidableEq, Repr

/-- `re.match(r'\x5e(\w|\.)+$', s)`: a non-empty string of word characters
or dots (ASCII word characters; the `$`-before-trailing-newline quirk of
Python regexes is not modelled, no claim depends on it). -/
def symbolPatternMatch (s : String) : Bool :=
  !s.isEmpty && s.toList.all (fun c => c.isAlphanum || c == '_' || c == '.')

/-- The final counters of one `refresh_stocks` run (lines 72-75, 99, 101-105). -/
structure RunSummary where
  totalSymbols : Nat
  symbolsNoData : Nat
  yahooErrors : Nat
  googleErrors : Nat
deriving DecidableEq, Repr

/-- The enumeration-and-filter step of `refresh_stocks` (lines 83-90): for
every exchange sheet, every row survives iff `stock_list` is empty or
contains its symbol, and the symbol matches the validity pattern. -/
def selectedStocks (stock_list : List String)
    (catalog : List (String × List StockRow)) : List (String × StockRow) :=
  catalog.flatMap fun sheet =>
    (sheet.2.filter fun stock =>
      (stock_list.isEmpty || stock_list.contains stock.Symbol)
        && symbolPatternMatch stock.Symbol).map fun stock => (sheet.1, stock)

/-- One step of the result-collection loop (lines 102-105): for one future's
triple, `yahoo_errors += yahoo_error`, `google_errors += google_error`,
`symbols_no_data += (2 == yahoo_error + google_error)` (booleans added as
ints). The accumulator is `(yahoo_errors, google_errors, symbols_no_data)`. -/
def foldStep (acc : Nat × Nat × Nat) (o : RefreshStockResult) : Nat × Nat × Nat :=
  (acc.1 + (if o.yahooError then 1 else 0),
   acc.2.1 + (if o.googleError then 1 else 0),
   acc.2.2 +
     (if (if o.yahooError then 1 else 0) + (if o.googleError then 1 else 0) = 2
      then 1 else 0))

/-- The result-collection fold (lines 101-105), over all futures in
submission order, starting from the zeroed counters of lines 72-75. -/
def foldOutcomes (outs : List RefreshStockResult) : Nat × Nat × Nat :=
  outs.foldl foldStep (0, 0, 0)

/-- The submission loop's date-resolution step over the filtered rows
(lines 91-98): each surviving row becomes a submitted task
`(exchange, symbol, start_date)`; a row whose date fails to parse raises
out of the loop (`none`), so no summary is ever produced for that run. -/
def resolveTasks (history_start_date : IpoStr) :
    List (String × StockRow) → Option (List (String × String × Date))
  | [] => some []
  | p :: rest =>
    match resolveStartDate history_start_date p.2.IPO with
    | none => none
    | some d =>
      (resolveTasks history_start_date rest).map fun ts => (p.1, p.2.Symbol, d) :: ts

/-- `refresh_stocks` (lines 60-108): filter the catalog, resolve each
surviving row's start date, submit one `refresh_stock` per row —
`end_date` defaults to `today` — and fold the collected triples into the
summary (`total_symbols` counts the submissions). Returns the summary
together with the per-symbol outcomes tagged by exchange and symbol. -/
def refresh_stocks (retry : Nat) (wy : YahooProvider) (wg : GoogleProvider)
    (history_start_date : IpoStr) (today : Date) (stock_list : List String)
    (catalog : List (String × List StockRow)) :
    Option (RunSummary × List (String × String × RefreshStockResult)) :=
  match resolveTasks history_start_date (selectedStocks stock_list catalog) with
  | none => none
  | some tasks =>
    let outs := tasks.map fun t =>
      (t.1, t.2.1, refresh_stock retry wy wg t.1 t.2.1 t.2.2 today)
    let folded := foldOutcomes (outs.map fun o => o.2.2)
    some (⟨tasks.length, folded.2.2, folded.1, folded.2.1⟩, outs)

/-! ### Helper lemmas about the retry loop -/

/-- The retry loop never enters more iterations than its range has. -/
theorem attemptsUsed_le {α : Type} (attempt : Nat → Option α) :
    ∀ (i k : Nat), attemptsUsed attempt i k ≤ k := by
  intro i k
  induction k generalizing i with
  | zero => simp [attemptsUsed]
  | succ k ih =>
    rw [attemptsUsed]
    cases attempt i with
    | some d => exact Nat.succ_le_succ (Nat.zero_le _)
    | none => exact Nat.succ_le_succ (ih (i + 1))

/-- If every attempt in the range fails, the loop returns `none`. -/
theorem fetchWithRetry_eq_none {α : Type} (attempt : Nat → Option α) :
    ∀ (i k : Nat), (∀ j, i ≤ j → j < i + k → attempt j = none) →
    fetchWithRetry attempt i k = none := by
  intro i k
  induction k generalizing i with
  | zero => intro _; rfl
  | succ k ih =>
    intro h
    rw [fetchWithRetry]
    rw [h i (Nat.le_refl i) (Nat.lt_of_lt_of_le (Nat.lt_succ_self i) (by omega))]
    exact ih (i + 1) (fun j hj hj2 => h j (by omega) (by omega))

/-- If the first `k - 1` attempts fail and the last attempt in the range
succeeds, the loop returns the last attempt's data. -/
theorem fetchWithRetry_last {α : Type} (attempt : Nat → Option α) (d : α) :
    ∀ (i k : Nat), 1 ≤ k → (∀ j, i ≤ j → j < i + k - 1 → attempt j = none) →
    attempt (i + k - 1) = some d → fetchWithRetry attempt i k = some d := by
  intro i k
  induction k generalizing i with
  | zero => intro h; omega
  | succ k ih =>
    intro _ hfail hlast
    rw [fetchWithRetry]
    cases k with
    | zero =>
      have : i + 1 - 1 = i := by omega
      rw [this] at hlast
      rw [hlast]
    | succ m =>
      rw [hfail i (Nat.le_refl i) (by omega)]
      exact ih (i + 1) (by omega)
        (fun j hj hj2 => hfail j (by omega) (by omega))
        (by have : i + 1 + (m + 1) - 1 = i + (m + 2) - 1 := by omega
            rw [this]; exact hlast)

/-- A successful loop result comes from some attempt inside the range. -/
theorem fetchWithRetry_eq_some {α : Type} (attempt : Nat → Option α) (d : α) :
    ∀ (i k : Nat), fetchWithRetry attempt i k = some d →
    ∃ j, i ≤ j ∧ j < i + k ∧ attempt j = some d := by
  intro i k
  induction k generalizing i with
  | zero => intro h; exact absurd h (by simp [fetchWithRetry])
  | succ k ih =>
    intro h
    rw [fetchWithRetry] at h
    cases ha : attempt i with
    | some e =>
      rw [ha] at h
      exact ⟨i, Nat.le_refl i, by omega, by rw [ha, ← h]⟩
    | none =>
      rw [ha] at h
      obtain ⟨j, hj1, hj2, hj3⟩ := ih (i + 1) h
      exact ⟨j, by omega, by omega, hj3⟩

/-- The loop result depends only on the attempt function's values. -/
theorem fetchWithRetry_congr {α : Type} (f g : Nat → Option α)
    (h : ∀ j, f j = g j) :
    ∀ (i k : Nat), fetchWithRetry f i k = fetchWithRetry g i k := by
  intro i k
  induction k generalizing i with
  | zero => rfl
  | succ k ih =>
    rw [fetchWithRetry, fetchWithRetry, h i]
    cases g i with
    | some d => rfl
    | none => exact ih (i + 1)

/-! ### Helper lemmas about `refresh_stock` -/

theorem refresh_stock_of_some (retry : Nat) (wy : YahooProvider)
    (wg : GoogleProvider) (exchange symbol : String) (start_date end_date : Date)
    (s : List PriceRow)
    (h : fallbackSeries retry wy wg exchange symbol start_date end_date = some s) :
    refresh_stock retry wy wg exchange symbol start_date end_date =
      ⟨some s, false, false, some (s.map (prependSymbol symbol))⟩ := by
  unfold refresh_stock
  rw [h]

theorem refresh_stock_of_none (retry : Nat) (wy : YahooProvider)
    (wg : GoogleProvider) (exchange symbol : String) (start_date end_date : Date)
    (h : fallbackSeries retry wy wg exchange symbol start_date end_date = none) :
    refresh_stock retry wy wg exchange symbol start_date end_date =
      ⟨none, true, true, none⟩ := by
  unfold refresh_stock
  rw [h]

/-- The fallback result is absent exactly when Yahoo produced nothing usable
(`None` or empty) and Google produced `None`. -/
theorem fallbackSeries_eq_none_iff (retry : Nat) (wy : YahooProvider)
    (wg : GoogleProvider) (exchange symbol : String) (start_date end_date : Date) :
    fallbackSeries retry wy wg exchange symbol start_date end_date = none ↔
      ((_get_yahoo_data retry wy exchange symbol start_date end_date = none ∨
        _get_yahoo_data retry wy exchange symbol start_date end_date = some []) ∧
       _get_google_data retry wg exchange symbol start_date end_date = none) := by
  unfold fallbackSeries
  cases hY : _get_yahoo_data retry wy exchange symbol start_date end_date with
  | none => simp
  | some s =>
    cases he : s.isEmpty with
    | true =>
      have hs : s = [] := by simpa using he
      subst hs
      simp
    | false =>
      have hs : s ≠ [] := by simpa using he
      simp [hs]

/-! ### Claim theorems -/

/-- Claim C9: in every outcome `refresh_stock` produces, the two failure
flags are equal (both are `history_prices is None`, the post-fallback
series being absent), so no outcome can record that exactly one source
failed. -/
theorem refresh_stock_flags_always_equal (retry : Nat) (wy : YahooProvider)
    (wg : GoogleProvider) (exchange symbol : String) (start_date end_date : Date) :
    (refresh_stock retry wy wg exchange symbol start_date end_date).yahooError =
      (refresh_stock retry wy wg exchange symbol start_date end_date).googleError
    ∧ ((refresh_stock retry wy wg exchange symbol start_date end_date).yahooError = true ↔
      (refresh_stock retry wy wg exchange symbol start_date end_date).historyPrices = none) := by
  cases h : fallbackSeries retry wy wg exchange symbol start_date end_date with
  | none =>
    rw [refresh_stock_of_none retry wy wg exchange symbol start_date end_date h]
    simp
  | some s =>
    rw [refresh_stock_of_some retry wy wg exchange symbol start_date end_date s h]
    simp

/-- Claim C2: the outcome has data (a present, non-empty final series) iff
the primary source returned a non-empty series or the secondary source
returned a non-empty series. -/
theorem refresh_stock_hadData_iff (retry : Nat) (wy : YahooProvider)
    (wg : GoogleProvider) (exchange symbol : String) (start_date end_date : Date) :
    hadData (refresh_stock retry wy wg exchange symbol start_date end_date) = true ↔
      ((∃ s, _get_yahoo_data retry wy exchange symbol start_date end_date = some s ∧ s ≠ [])
       ∨ (∃ t, _get_google_data retry wg exchange symbol start_date end_date = some t ∧ t ≠ [])) := by
  cases hY : _get_yahoo_data retry wy exchange symbol start_date end_date with
  | none =>
    cases hG : _get_google_data retry wg exchange symbol start_date end_date with
    | none =>
      have hf : fallbackSeries retry wy wg exchange symbol start_date end_date = none := by
        unfold fallbackSeries
        rw [hY, hG]
      rw [refresh_stock_of_none retry wy wg exchange symbol start_date end_date hf]
      simp [hadData, hY, hG]
    | some t =>
      have hf : fallbackSeries retry wy wg exchange symbol start_date end_date = some t := by
        unfold fallbackSeries
        rw [hY, hG]
      rw [refresh_stock_of_some retry wy wg exchange symbol start_date end_date t hf]
      simp [hadData, hY, hG, List.isEmpty_iff]
  | some s =>
    cases he : s.isEmpty with
    | true =>
      have hs : s = [] := by simpa using he
      subst hs
      cases hG : _get_google_data retry wg exchange symbol start_date end_date with
      | none =>
        have hf : fallbackSeries retry wy wg exchange symbol start_date end_date = none := by
          unfold fallbackSeries
          rw [hY, hG]
          rfl
        rw [refresh_stock_of_none retry wy wg exchange symbol start_date end_date hf]
        simp [hadData, hY, hG]
      | some t =>
        have hf : fallbackSeries retry wy wg exchange symbol start_date end_date = some t := by
          unfold fallbackSeries
          rw [hY, hG]
          rfl
        rw [refresh_stock_of_some retry wy wg exchange symbol start_date end_date t hf]
        simp [hadData, hY, hG, List.isEmpty_iff]
    | false =>
      have hs : s ≠ [] := by simpa using he
      have hf : fallbackSeries retry wy wg exchange symbol start_date end_date = some s := by
        unfold fallbackSeries
        rw [hY]
        simp [he]
      rw [refresh_stock_of_some retry wy wg exchange symbol start_date end_date s hf]
      simp [hadData, hY, hs]

/-- Claim C9 witness: with both providers failing, the two flags of the
produced outcome are equal. -/
theorem refresh_stock_flags_always_equal_witness :
    (refresh_stock 1 (fun _ _ _ _ => none) (fun _ _ _ _ => none) "nyse" "Z"
        ⟨2000, 1, 1⟩ ⟨2017, 5, 1⟩).yahooError =
      (refresh_stock 1 (fun _ _ _ _ => none) (fun _ _ _ _ => none) "nyse" "Z"
        ⟨2000, 1, 1⟩ ⟨2017, 5, 1⟩).googleError :=
  (refresh_stock_flags_always_equal 1 (fun _ _ _ _ => none) (fun _ _ _ _ => none)
    "nyse" "Z" ⟨2000, 1, 1⟩ ⟨2017, 5, 1⟩).1

/-- Claim C2 witness: a non-empty primary series gives `hadData = true`. -/
theorem refresh_stock_hadData_iff_witness :
    hadData (refresh_stock 1 (fun _ _ _ _ => some [(⟨0, 1, 2, 3, 4, 5, 6⟩ : YahooRow)])
      (fun _ _ _ _ => none) "nyse" "Z" ⟨2000, 1, 1⟩ ⟨2017, 5, 1⟩) = true :=
  (refresh_stock_hadData_iff 1 (fun _ _ _ _ => some [(⟨0, 1, 2, 3, 4, 5, 6⟩ : YahooRow)])
    (fun _ _ _ _ => none) "nyse" "Z" ⟨2000, 1, 1⟩ ⟨2017, 5, 1⟩).mpr
    (Or.inl ⟨[(⟨0, 1, 2, 3, 6, 5⟩ : PriceRow)], by decide, by decide⟩)

/-- Claim C10: a successful `_get_yahoo_data` result is the provider frame
of one attempt with the `Adj Close` column copied into `Close` (and the
`Adj Close` column removed, as the `PriceRow` shape has no such field). -/
theorem yahoo_close_is_adj_close (retry : Nat) (wy : YahooProvider)
    (exchange symbol : String) (start_date end_date : Date) (s : List PriceRow)
    (h : _get_yahoo_data retry wy exchange symbol start_date end_date = some s) :
    ∃ i raw, i < retry ∧ wy (pyStrip symbol) start_date (addOneDay end_date) i = some raw ∧
      s = yahooNormalize raw ∧
      s.map (fun r => r.Close) = raw.map (fun r => r.AdjClose) := by
  obtain ⟨j, _, hj2, hj3⟩ :=
    fetchWithRetry_eq_some (yahooAttempt wy symbol start_date end_date) s 0 retry h
  rw [yahooAttempt, Option.map_eq_some'] at hj3
  obtain ⟨raw, hraw, hnorm⟩ := hj3
  refine ⟨j, raw, by omega, hraw, hnorm.symm, ?_⟩
  rw [← hnorm]
  simp only [yahooNormalize, List.map_map]
  rfl

/-- Claim C10 witness. -/
theorem yahoo_close_is_adj_close_witness :
    ∃ i raw, i < 1 ∧
      (fun (_ : String) (_ _ : Date) (_ : Nat) =>
        some [(⟨0, 10, 11, 9, 10, 100, 12⟩ : YahooRow)] : YahooProvider)
        (pyStrip "AAPL") ⟨2000, 1, 1⟩ (addOneDay ⟨2017, 5, 1⟩) i = some raw ∧
      [(⟨0, 10, 11, 9, 12, 100⟩ : PriceRow)] = yahooNormalize raw ∧
      [(⟨0, 10, 11, 9, 12, 100⟩ : PriceRow)].map (fun r => r.Close) =
        raw.map (fun r => r.AdjClose) :=
  yahoo_close_is_adj_close 1
    (fun _ _ _ _ => some [(⟨0, 10, 11, 9, 10, 100, 12⟩ : YahooRow)])
    "nyse" "AAPL" ⟨2000, 1, 1⟩ ⟨2017, 5, 1⟩ [(⟨0, 10, 11, 9, 12, 100⟩ : PriceRow)]
    (by decide)

/-- Claim C7: the primary provider is consulted only at end date advanced by
one day and the secondary only at the original end date — the whole outcome
is unchanged when the providers are replaced by ones agreeing at exactly
those query points — and when the primary returns a non-empty series the
secondary provider is never consulted at all. -/
theorem refresh_stock_end_date_usage (retry : Nat) (wy wy' : YahooProvider)
    (wg wg' : GoogleProvider) (exchange symbol : String) (start_date end_date : Date) :
    ((∀ i, wy (pyStrip symbol) start_date (addOneDay end_date) i =
        wy' (pyStrip symbol) start_date (addOneDay end_date) i) →
     (∀ i, wg (pyStrip symbol) start_date end_date i =
        wg' (pyStrip symbol) start_date end_date i) →
     refresh_stock retry wy wg exchange symbol start_date end_date =
       refresh_stock retry wy' wg' exchange symbol start_date end_date)
    ∧ (∀ s, _get_yahoo_data retry wy exchange symbol start_date end_date = some s →
        s ≠ [] →
        refresh_stock retry wy wg exchange symbol start_date end_date =
          refresh_stock retry wy wg' exchange symbol start_date end_date) := by
  constructor
  · intro hy hg
    have hY : _get_yahoo_data retry wy exchange symbol start_date end_date =
        _get_yahoo_data retry wy' exchange symbol start_date end_date := by
      unfold _get_yahoo_data
      exact fetchWithRetry_congr _ _
        (fun j => by rw [yahooAttempt, yahooAttempt, hy j]) 0 retry
    have hG : _get_google_data retry wg exchange symbol start_date end_date =
        _get_google_data retry wg' exchange symbol start_date end_date := by
      unfold _get_google_data
      exact fetchWithRetry_congr _ _
        (fun j => by rw [googleAttempt, googleAttempt, hg j]) 0 retry
    unfold refresh_stock fallbackSeries
    rw [hY, hG]
  · intro s hY hs
    have he : s.isEmpty = false := by simpa using hs
    have hf : ∀ wgx : GoogleProvider,
        fallbackSeries retry wy wgx exchange symbol start_date end_date = some s := by
      intro wgx
      unfold fallbackSeries
      rw [hY]
      simp [he]
    rw [refresh_stock_of_some retry wy wg exchange symbol start_date end_date s (hf wg),
      refresh_stock_of_some retry wy wg' exchange symbol start_date end_date s (hf wg')]

/-- Claim C7 witness: with a primary that succeeds non-emptily, two secondary
providers that disagree everywhere give identical outcomes. -/
theorem refresh_stock_end_date_usage_witness :
    refresh_stock 1 (fun _ _ _ _ => some [(⟨0, 1, 2, 3, 4, 5, 6⟩ : YahooRow)])
      (fun _ _ _ _ => none) "nyse" "AAPL" ⟨2000, 1, 1⟩ ⟨2017, 5, 1⟩ =
    refresh_stock 1 (fun _ _ _ _ => some [(⟨0, 1, 2, 3, 4, 5, 6⟩ : YahooRow)])
      (fun _ _ _ _ => some [(⟨9, 9, 9, 9, 9, 9⟩ : PriceRow)]) "nyse" "AAPL"
      ⟨2000, 1, 1⟩ ⟨2017, 5, 1⟩ :=
  (refresh_stock_end_date_usage 1 (fun _ _ _ _ => some [(⟨0, 1, 2, 3, 4, 5, 6⟩ : YahooRow)])
    (fun _ _ _ _ => some [(⟨0, 1, 2, 3, 4, 5, 6⟩ : YahooRow)])
    (fun _ _ _ _ => none) (fun _ _ _ _ => some [(⟨9, 9, 9, 9, 9, 9⟩ : PriceRow)])
    "nyse" "AAPL" ⟨2000, 1, 1⟩ ⟨2017, 5, 1⟩).2
    [(⟨0, 1, 2, 3, 6, 5⟩ : PriceRow)] (by decide) (by decide)

/-- Claim C4 counterexample: with a primary that always raises and a
secondary that returns an empty frame, neither source produces a successful
non-empty result, yet a file is written (the `is not None` check at line 114
does not test emptiness). -/
theorem refresh_stock_persists_empty_series :
    _get_yahoo_data 1 (fun _ _ _ _ => none) "nasdaq" "X" ⟨2000, 1, 1⟩ ⟨2017, 5, 1⟩ = none
    ∧ _get_google_data 1 (fun _ _ _ _ => some ([] : List PriceRow)) "nasdaq" "X"
        ⟨2000, 1, 1⟩ ⟨2017, 5, 1⟩ = some []
    ∧ (refresh_stock 1 (fun _ _ _ _ => none) (fun _ _ _ _ => some ([] : List PriceRow))
        "nasdaq" "X" ⟨2000, 1, 1⟩ ⟨2017, 5, 1⟩).writtenFile ≠ none := by
  decide

/-- Claim C4 amended: the task normalizes, prepends the symbol column and
persists exactly when the post-fallback series is present (`is not None`),
even when that series is empty; only when both sources return no series at
all (Yahoo `None` or empty and then Google `None`) is no file written. -/
theorem refresh_stock_persists_iff_present (retry : Nat) (wy : YahooProvider)
    (wg : GoogleProvider) (exchange symbol : String) (start_date end_date : Date) :
    ((refresh_stock retry wy wg exchange symbol start_date end_date).writtenFile = none ↔
      (refresh_stock retry wy wg exchange symbol start_date end_date).historyPrices = none)
    ∧ (∀ s, (refresh_stock retry wy wg exchange symbol start_date end_date).historyPrices = some s →
        (refresh_stock retry wy wg exchange symbol start_date end_date).writtenFile =
          some (s.map (prependSymbol symbol)))
    ∧ ((refresh_stock retry wy wg exchange symbol start_date end_date).writtenFile = none ↔
        ((_get_yahoo_data retry wy exchange symbol start_date end_date = none ∨
          _get_yahoo_data retry wy exchange symbol start_date end_date = some []) ∧
         _get_google_data retry wg exchange symbol start_date end_date = none)) := by
  rw [← fallbackSeries_eq_none_iff retry wy wg exchange symbol start_date end_date]
  cases h : fallbackSeries retry wy wg exchange symbol start_date end_date with
  | none =>
    rw [refresh_stock_of_none retry wy wg exchange symbol start_date end_date h]
    simp
  | some s =>
    rw [refresh_stock_of_some retry wy wg exchange symbol start_date end_date s h]
    simp

/-- Claim C4 amended witness: a present series is persisted with the symbol
prepended to each row. -/
theorem refresh_stock_persists_iff_present_witness :
    (refresh_stock 1 (fun _ _ _ _ => some [(⟨0, 1, 2, 3, 4, 5, 6⟩ : YahooRow)])
      (fun _ _ _ _ => none) "nyse" "IBM" ⟨2000, 1, 1⟩ ⟨2017, 5, 1⟩).writtenFile =
      some ([(⟨0, 1, 2, 3, 6, 5⟩ : PriceRow)].map (prependSymbol "IBM")) :=
  (refresh_stock_persists_iff_present 1
    (fun _ _ _ _ => some [(⟨0, 1, 2, 3, 4, 5, 6⟩ : YahooRow)])
    (fun _ _ _ _ => none) "nyse" "IBM" ⟨2000, 1, 1⟩ ⟨2017, 5, 1⟩).2.1
    [(⟨0, 1, 2, 3, 6, 5⟩ : PriceRow)] (by decide)

/-- Claim C6: each adapter call enters at most `retry` attempts; an attempt
that raises is caught (attempts are `Option`-valued and the loop is total);
when every attempt in the range fails the adapter returns the `None` failure
marker instead of raising; and when the first `retry - 1` attempts fail but
the next one succeeds, the adapter returns that attempt's data. -/
theorem adapter_retry_behaviour (retry : Nat) (wy : YahooProvider)
    (wg : GoogleProvider) (exchange symbol : String) (start_date end_date : Date) :
    (attemptsUsed (yahooAttempt wy symbol start_date end_date) 0 retry ≤ retry
      ∧ attemptsUsed (googleAttempt wg symbol start_date end_date) 0 retry ≤ retry)
    ∧ ((∀ i, i < retry → yahooAttempt wy symbol start_date end_date i = none) →
        _get_yahoo_data retry wy exchange symbol start_date end_date = none)
    ∧ ((∀ i, i < retry → googleAttempt wg symbol start_date end_date i = none) →
        _get_google_data retry wg exchange symbol start_date end_date = none)
    ∧ (∀ d, 1 ≤ retry →
        (∀ i, i < retry - 1 → yahooAttempt wy symbol start_date end_date i = none) →
        yahooAttempt wy symbol start_date end_date (retry - 1) = some d →
        _get_yahoo_data retry wy exchange symbol start_date end_date = some d)
    ∧ (∀ d, 1 ≤ retry →
        (∀ i, i < retry - 1 → googleAttempt wg symbol start_date end_date i = none) →
        googleAttempt wg symbol start_date end_date (retry - 1) = some d →
        _get_google_data retry wg exchange symbol start_date end_date = some d) := by
  refine ⟨⟨attemptsUsed_le _ 0 retry, attemptsUsed_le _ 0 retry⟩, ?_, ?_, ?_, ?_⟩
  · intro h
    exact fetchWithRetry_eq_none _ 0 retry (fun j _ hj => h j (by omega))
  · intro h
    exact fetchWithRetry_eq_none _ 0 retry (fun j _ hj => h j (by omega))
  · intro d hr h hd
    exact fetchWithRetry_last _ d 0 retry hr (fun j _ hj => h j (by omega))
      (by simpa using hd)
  · intro d hr h hd
    exact fetchWithRetry_last _ d 0 retry hr (fun j _ hj => h j (by omega))
      (by simpa using hd)

/-- Claim C6 witness: with `retry = 3`, a primary whose first two attempts
raise and whose third succeeds is reported successful with the third
attempt's data, and a secondary that always raises returns the failure
marker. -/
theorem adapter_retry_behaviour_witness :
    _get_yahoo_data 3
      (fun _ _ _ i => if i = 2 then some [(⟨0, 1, 2, 3, 4, 5, 6⟩ : YahooRow)] else none)
      "nyse" "AAPL" ⟨2000, 1, 1⟩ ⟨2017, 5, 1⟩ = some [(⟨0, 1, 2, 3, 6, 5⟩ : PriceRow)]
    ∧ _get_google_data 3 (fun _ _ _ _ => none) "nyse" "AAPL"
        ⟨2000, 1, 1⟩ ⟨2017, 5, 1⟩ = none :=
  ⟨(adapter_retry_behaviour 3
      (fun _ _ _ i => if i = 2 then some [(⟨0, 1, 2, 3, 4, 5, 6⟩ : YahooRow)] else none)
      (fun _ _ _ _ => none) "nyse" "AAPL" ⟨2000, 1, 1⟩ ⟨2017, 5, 1⟩).2.2.2.1
      [(⟨0, 1, 2, 3, 6, 5⟩ : PriceRow)] (by decide) (by decide) (by decide),
   (adapter_retry_behaviour 3
      (fun _ _ _ i => if i = 2 then some [(⟨0, 1, 2, 3, 4, 5, 6⟩ : YahooRow)] else none)
      (fun _ _ _ _ => none) "nyse" "AAPL" ⟨2000, 1, 1⟩ ⟨2017, 5, 1⟩).2.2.1
      (by decide)⟩

/-- Claim C5: an `'n/a'` or NaN IPO field resolves to the configured
history-start date; a numeric IPO year `y` (in particular any 4-digit year)
resolves to January 1 of year `y`; a full date string is parsed directly. -/
theorem resolve_start_date_cases (history_start_date : IpoStr) :
    (∀ ipo : IpoField, ipo = IpoField.str IpoStr.na ∨ ipo = IpoField.nan →
      resolveStartDate history_start_date ipo = pandasToDatetime history_start_date)
    ∧ (∀ y : Nat, 1000 ≤ y → y ≤ 9999 →
      resolveStartDate history_start_date (IpoField.num y) = some ⟨y, 1, 1⟩)
    ∧ (∀ d : Date, resolveStartDate history_start_date (IpoField.str (IpoStr.fullDate d)) = some d) := by
  refine ⟨?_, ?_, ?_⟩
  · rintro ipo (rfl | rfl) <;> rfl
  · intro y _ _
    rfl
  · intro d
    rfl

/-- Claim C5 witness. -/
theorem resolve_start_date_cases_witness :
    resolveStartDate (IpoStr.fullDate ⟨1990, 1, 1⟩) IpoField.nan =
      pandasToDatetime (IpoStr.fullDate ⟨1990, 1, 1⟩)
    ∧ resolveStartDate (IpoStr.fullDate ⟨1990, 1, 1⟩) (IpoField.num 1999) =
      some ⟨1999, 1, 1⟩ :=
  ⟨(resolve_start_date_cases (IpoStr.fullDate ⟨1990, 1, 1⟩)).1 IpoField.nan (Or.inr rfl),
   (resolve_start_date_cases (IpoStr.fullDate ⟨1990, 1, 1⟩)).2.1 1999 (by decide) (by decide)⟩

/-- Folding the outcome triples counts, in each component, the outcomes
whose respective flag (or conjunction of flags) is set. -/
theorem foldl_foldStep (outs : List RefreshStockResult) :
    ∀ acc : Nat × Nat × Nat,
    outs.foldl foldStep acc =
      (acc.1 + outs.countP (fun o => o.yahooError),
       acc.2.1 + outs.countP (fun o => o.googleError),
       acc.2.2 + outs.countP (fun o => o.yahooError && o.googleError)) := by
  induction outs with
  | nil => intro acc; simp
  | cons o rest ih =>
    intro acc
    rw [List.foldl_cons, ih]
    rcases acc with ⟨a, b, c⟩
    unfold foldStep
    cases hy : o.yahooError <;> cases hg : o.googleError <;>
      simp [List.countP_cons, hy, hg] <;> omega

/-- `foldOutcomes` in closed form. -/
theorem foldOutcomes_eq (outs : List RefreshStockResult) :
    foldOutcomes outs =
      (outs.countP (fun o => o.yahooError),
       outs.countP (fun o => o.googleError),
       outs.countP (fun o => o.yahooError && o.googleError)) := by
  simpa [foldOutcomes] using foldl_foldStep outs (0, 0, 0)

/-- Claim C3: the `symbols_no_data` counter equals the number of outcomes
with both failure flags set — both over any outcome list and in the summary
a completed `refresh_stocks` run reports — and appending one more outcome
increments it exactly when that outcome has both flags set. -/
theorem symbols_no_data_counts_double_failures :
    (∀ outs : List RefreshStockResult,
      (foldOutcomes outs).2.2 = outs.countP (fun o => o.yahooError && o.googleError))
    ∧ (∀ (outs : List RefreshStockResult) (o : RefreshStockResult),
      (foldOutcomes (outs ++ [o])).2.2 =
        (foldOutcomes outs).2.2 + (if o.yahooError && o.googleError then 1 else 0))
    ∧ (∀ (retry : Nat) (wy : YahooProvider) (wg : GoogleProvider)
        (history_start_date : IpoStr) (today : Date) (stock_list : List String)
        (catalog : List (String × List StockRow))
        (summary : RunSummary) (outs : List (String × String × RefreshStockResult)),
        refresh_stocks retry wy wg history_start_date today stock_list catalog =
          some (summary, outs) →
        summary.symbolsNoData =
          (outs.map (fun o => o.2.2)).countP (fun o => o.yahooError && o.googleError)) := by
  refine ⟨?_, ?_, ?_⟩
  · intro outs
    rw [foldOutcomes_eq]
  · intro outs o
    rw [foldOutcomes_eq, foldOutcomes_eq]
    simp [List.countP_append, List.countP_cons]
  · intro retry wy wg history_start_date today stock_list catalog summary outs h
    unfold refresh_stocks at h
    cases ht : resolveTasks history_start_date (selectedStocks stock_list catalog) with
    | none => rw [ht] at h; exact absurd h (by simp)
    | some tasks =>
      rw [ht] at h
      simp only [Option.some.injEq, Prod.mk.injEq] at h
      obtain ⟨h1, h2⟩ := h
      subst h2
      rw [← h1]
      simp only [foldOutcomes_eq]

/-- Claim C3 witness: a one-symbol run where both sources fail reports
`symbols_no_data` equal to the count of double-failure outcomes. -/
theorem symbols_no_data_counts_double_failures_witness :
    (⟨1, 1, 1, 1⟩ : RunSummary).symbolsNoData =
      (([("e", "S", (⟨none, true, true, none⟩ : RefreshStockResult))].map
        (fun o => o.2.2)).countP (fun o => o.yahooError && o.googleError)) :=
  symbols_no_data_counts_double_failures.2.2 1 (fun _ _ _ _ => none)
    (fun _ _ _ _ => none) (IpoStr.fullDate ⟨1990, 1, 1⟩) ⟨2017, 5, 1⟩ []
    [("e", [⟨"S", IpoField.num 2000⟩])] ⟨1, 1, 1, 1⟩
    [("e", "S", ⟨none, true, true, none⟩)] (by decide)

/-- Every row surviving the coordinator's filter has a pattern-valid symbol. -/
theorem selectedStocks_pattern (stock_list : List String)
    (catalog : List (String × List StockRow)) :
    ∀ p ∈ selectedStocks stock_list catalog, symbolPatternMatch p.2.Symbol = true := by
  intro p hp
  simp only [selectedStocks, List.mem_flatMap, List.mem_map, List.mem_filter] at hp
  obtain ⟨sheet, _, stock, ⟨_, hpred⟩, rfl⟩ := hp
  exact And.right (by simpa using hpred)

/-- Successful date resolution keeps one task per filtered row, carrying
that row's exchange and symbol. -/
theorem resolveTasks_sound (history_start_date : IpoStr) :
    ∀ (sel : List (String × StockRow)) (tasks : List (String × String × Date)),
    resolveTasks history_start_date sel = some tasks →
    tasks.length = sel.length ∧
      ∀ t ∈ tasks, ∃ p ∈ sel, t.1 = p.1 ∧ t.2.1 = p.2.Symbol := by
  intro sel
  induction sel with
  | nil =>
    intro tasks h
    obtain rfl : tasks = [] := by simpa [resolveTasks] using h.symm
    simp
  | cons p rest ih =>
    intro tasks h
    rw [resolveTasks] at h
    cases hd : resolveStartDate history_start_date p.2.IPO with
    | none => rw [hd] at h; exact absurd h (by simp)
    | some d =>
      rw [hd] at h
      rw [Option.map_eq_some'] at h
      obtain ⟨ts, hts, rfl⟩ := h
      obtain ⟨hlen, hmem⟩ := ih ts hts
      refine ⟨by simp [hlen], ?_⟩
      intro t ht
      rcases List.mem_cons.mp ht with rfl | ht'
      · exact ⟨p, List.mem_cons_self p rest, rfl, rfl⟩
      · obtain ⟨q, hq, h1, h2⟩ := hmem t ht'
        exact ⟨q, List.mem_cons_of_mem p hq, h1, h2⟩

/-- Claim C8: a listing entry whose symbol fails the validity pattern never
survives the coordinator's enumeration filter, no outcome tagged with that
symbol is ever collected, and — since `total_symbols` counts exactly the
submitted tasks — it is not counted in `total_symbols` (which equals the
number of collected outcomes). -/
theorem invalid_symbols_never_submitted (s : String)
    (hs : ¬ symbolPatternMatch s = true) (stock_list : List String)
    (catalog : List (String × List StockRow)) :
    (∀ p ∈ selectedStocks stock_list catalog, p.2.Symbol ≠ s)
    ∧ (∀ (retry : Nat) (wy : YahooProvider) (wg : GoogleProvider)
        (history_start_date : IpoStr) (today : Date)
        (summary : RunSummary) (outs : List (String × String × RefreshStockResult)),
        refresh_stocks retry wy wg history_start_date today stock_list catalog =
          some (summary, outs) →
        (∀ o ∈ outs, o.2.1 ≠ s) ∧ summary.totalSymbols = outs.length) := by
  constructor
  · intro p hp heq
    exact hs (heq ▸ selectedStocks_pattern stock_list catalog p hp)
  · intro retry wy wg history_start_date today summary outs h
    unfold refresh_stocks at h
    cases ht : resolveTasks history_start_date (selectedStocks stock_list catalog) with
    | none => rw [ht] at h; exact absurd h (by simp)
    | some tasks =>
      rw [ht] at h
      simp only [Option.some.injEq, Prod.mk.injEq] at h
      obtain ⟨h1, h2⟩ := h
      obtain ⟨_, hmem⟩ :=
        resolveTasks_sound history_start_date (selectedStocks stock_list catalog) tasks ht
      constructor
      · intro o ho heq
        rw [← h2] at ho
        obtain ⟨t, htmem, rfl⟩ := List.mem_map.mp ho
        obtain ⟨p, hp, _, hsym⟩ := hmem t htmem
        exact hs (heq ▸ hsym ▸ selectedStocks_pattern stock_list catalog p hp)
      · rw [← h1, ← h2]
        simp

/-- Claim C8 witness: in a catalog holding `"-A"` (leading dash, invalid)
and `"GOOD"`, only `"GOOD"` survives enumeration, its outcome is not tagged
`"-A"`, and `total_symbols` is the single collected outcome. -/
theorem invalid_symbols_never_submitted_witness :
    (("e", (⟨"GOOD", IpoField.num 2000⟩ : StockRow)).2.Symbol ≠ "-A")
    ∧ (("e", "GOOD", (⟨none, true, true, none⟩ : RefreshStockResult)).2.1 ≠ "-A")
    ∧ (⟨1, 1, 1, 1⟩ : RunSummary).totalSymbols =
        [("e", "GOOD", (⟨none, true, true, none⟩ : RefreshStockResult))].length := by
  have h := invalid_symbols_never_submitted "-A" (by decide) []
    [("e", [⟨"-A", IpoField.num 2000⟩, ⟨"GOOD", IpoField.num 2000⟩])]
  have h2 := h.2 1 (fun _ _ _ _ => none) (fun _ _ _ _ => none)
    (IpoStr.fullDate ⟨1990, 1, 1⟩) ⟨2017, 5, 1⟩ ⟨1, 1, 1, 1⟩
    [("e", "GOOD", ⟨none, true, true, none⟩)] (by decide)
  exact ⟨h.1 ("e", ⟨"GOOD", IpoField.num 2000⟩) (by decide),
    h2.1 ("e", "GOOD", ⟨none, true, true, none⟩) (by decide), h2.2⟩

/-- Primary provider for the three-symbol scenario of claim C1: succeeds
only for symbol `A`. -/
def wyC1 : YahooProvider := fun sym _ _ _ =>
  if sym = "A" then some [⟨0, 10, 11, 9, 10, 100, 12⟩] else none

/-- Secondary provider for the three-symbol scenario of claim C1: succeeds
only for symbol `B`. -/
def wgC1 : GoogleProvider := fun sym _ _ _ =>
  if sym = "B" then some [⟨0, 20, 21, 19, 20, 200⟩] else none

/-- Catalog with one exchange and three symbols for claim C1: `A` succeeds
on primary, `B` fails primary but succeeds on secondary, `C` fails both. -/
def catalogC1 : List (String × List StockRow) :=
  [("nasdaq", [⟨"A", IpoField.num 2000⟩, ⟨"B", IpoField.num 2001⟩,
    ⟨"C", IpoField.num 2002⟩])]

/-- Claim C1, evaluated at the claimed scenario: the run reports
`yahoo_errors = 1`, not ≥ 2, because symbol `B`'s outcome carries
`primaryFailed = false` even though the primary returned no data for it
(both returned flags are `history_prices is None`, the post-fallback
value). -/
theorem refresh_stocks_three_symbol_error_counts :
    (refresh_stocks 2 wyC1 wgC1 (IpoStr.fullDate ⟨1990, 1, 1⟩) ⟨2017, 5, 1⟩ []
        catalogC1).map
        (fun p => (p.1.totalSymbols, p.1.symbolsNoData, p.1.yahooErrors, p.1.googleErrors)) =
      some (3, 1, 1, 1)
    ∧ _get_yahoo_data 2 wyC1 "nasdaq" "B" ⟨2001, 1, 1⟩ ⟨2017, 5, 1⟩ = none
    ∧ (refresh_stock 2 wyC1 wgC1 "nasdaq" "B" ⟨2001, 1, 1⟩ ⟨2017, 5, 1⟩).yahooError = false := by
  decide

end UsaMarket
